import Mathlib

/-! ARC: MQTT button / LED bridge (`MQTT/src/main.c`)

A shallow embedding of the Zephyr application in `MQTT/src/main.c`.

* C strings and byte buffers are lists of unsigned-char values (`List Nat`);
  the end of a list reads as the terminating NUL.
* Every call that leaves the program (Zephyr kernel, GPIO, network and MQTT
  library, logging) is recorded, in program order, in `World.trace`.
* What such a call returns or writes back is supplied by the environment
  `Zephyr`, as a function of the calls made so far, so every theorem that
  quantifies over `Zephyr` holds for every behaviour of the platform.
-/

namespace ARC

/-! ## C library -/

/-- Bytes of a C string literal, without the terminating NUL. -/
def cstr (s : String) : List Nat := s.toList.map Char.toNat

/-- C `strlen`: the number of bytes before the first NUL. -/
def strlen : List Nat → Nat
  | [] => 0
  | c :: s => if c = 0 then 0 else strlen s + 1

/-- C `strncmp`: compares at most `n` characters, as unsigned chars, and stops
after a NUL; zero when equal, otherwise the difference of the first pair of
characters that differ. -/
def strncmp : List Nat → List Nat → Nat → Int
  | _, _, 0 => 0
  | s1, s2, n + 1 =>
    if s1.headD 0 ≠ s2.headD 0 then (s1.headD 0 : Int) - (s2.headD 0 : Int)
    else if s1.headD 0 = 0 then 0
    else strncmp s1.tail s2.tail n

/-! ## Configuration (`#define`s of main.c) -/

def MQTT_BROKER_ADDR : List Nat := cstr "192.168.1.10"
def MQTT_BROKER_PORT : Nat := 1883
def MQTT_CLIENT_ID : List Nat := cstr "zephyr_client"
def BUTTON_TOPIC : List Nat := cstr "device/button/press"
def LED_TOPIC : List Nat := cstr "device/led/status"

/-! ## Types of the MQTT library used by main.c -/

/-- enum mqtt_qos. -/
inductive mqtt_qos where
  | MQTT_QOS_0_AT_MOST_ONCE
  | MQTT_QOS_1_AT_LEAST_ONCE
  | MQTT_QOS_2_EXACTLY_ONCE
  deriving DecidableEq, Repr

/-- enum mqtt_evt_type. -/
inductive mqtt_evt_type where
  | MQTT_EVT_CONNACK
  | MQTT_EVT_DISCONNECT
  | MQTT_EVT_PUBLISH
  | MQTT_EVT_PUBACK
  | MQTT_EVT_PUBREC
  | MQTT_EVT_PUBREL
  | MQTT_EVT_PUBCOMP
  | MQTT_EVT_SUBACK
  | MQTT_EVT_UNSUBACK
  | MQTT_EVT_PINGRESP
  deriving DecidableEq, Repr

/-- struct mqtt_utf8: `utf8` is the memory the pointer refers to. -/
structure mqtt_utf8 where
  utf8 : List Nat
  size : Nat
  deriving DecidableEq, Repr

/-- struct mqtt_binstr: `data` is the memory the pointer refers to. -/
structure mqtt_binstr where
  data : List Nat
  len : Nat
  deriving DecidableEq, Repr

structure mqtt_topic where
  topic : mqtt_utf8
  qos : mqtt_qos
  deriving DecidableEq, Repr

structure mqtt_publish_message where
  topic : mqtt_topic
  payload : mqtt_binstr
  deriving DecidableEq, Repr

structure mqtt_publish_param where
  message : mqtt_publish_message
  message_id : Nat
  dup_flag : Nat
  retain_flag : Nat
  deriving DecidableEq, Repr

/-- The parameter structs that carry only a message id (puback, pubrec,
pubrel, pubcomp). -/
structure mqtt_msgid_param where
  message_id : Nat
  deriving DecidableEq, Repr

/-- The `param` union of struct mqtt_evt, with the members main.c reads kept
side by side. -/
structure mqtt_evt_param where
  publish : mqtt_publish_param
  puback : mqtt_msgid_param
  pubrec : mqtt_msgid_param
  pubcomp : mqtt_msgid_param
  deriving DecidableEq, Repr

structure mqtt_evt where
  type : mqtt_evt_type
  param : mqtt_evt_param
  result : Int
  deriving DecidableEq, Repr

/-! ## Observable calls -/

/-- One call out of the program. The MQTT calls all act on the single global
`client`, the GPIO calls on the global `led`. LOG_INF is recorded as written in
the source, although the module is registered at LOG_LEVEL_ERR. A delivery of a
management event to `handler_cb` is recorded as well. -/
inductive Call where
  | printk (fmt : String) (args : List Int)
  | LOG_ERR (fmt : String) (args : List Int)
  | LOG_INF (fmt : String) (args : List Int)
  | k_cycle_get_32
  | gpio_pin_set_dt (value : Int)
  | mqtt_subscribe (list : List mqtt_topic) (list_count : Nat) (message_id : Nat)
  | mqtt_publish (param : mqtt_publish_param)
  | mqtt_publish_qos2_release (message_id : Nat)
  | mqtt_client_init
  | net_addr_pton (family : Nat) (src : List Nat)
  | mqtt_connect
  | zsock_poll (nfds : Nat) (timeout : Int)
  | mqtt_input
  | mqtt_live
  | net_mgmt_init_event_callback (mgmt_event_mask : Nat)
  | net_mgmt_add_event_callback
  | net_if_get_default
  | net_dhcpv4_start
  | k_sem_take
  | k_sem_give
  | handler_cb (mgmt_event : Nat)
  deriving DecidableEq, Repr

/-- Calls that drive the LED. -/
def Call.isGpio : Call → Bool
  | .gpio_pin_set_dt _ => true
  | _ => false

/-- Calls into the MQTT library. -/
def Call.isMqtt : Call → Bool
  | .mqtt_subscribe _ _ _ => true
  | .mqtt_publish _ => true
  | .mqtt_publish_qos2_release _ => true
  | .mqtt_client_init => true
  | .mqtt_connect => true
  | .mqtt_input => true
  | .mqtt_live => true
  | _ => false

/-! ## Program state -/

structure zsock_pollfd where
  fd : Int
  events : Nat
  revents : Nat
  deriving DecidableEq, Repr

structure sockaddr_in where
  sin_family : Nat
  sin_port : Nat
  sin_addr : Nat
  deriving DecidableEq, Repr

/-- The value a function pointer `evt_cb` can hold in this program. -/
inductive evt_cb_fn where
  | mqtt_event_handler
  deriving DecidableEq, Repr

/-- The fields of struct mqtt_client that main.c writes or reads;
`sock` is `transport.tcp.sock`, `broker` tells whether the pointer refers to
the global `broker`. -/
structure mqtt_client where
  broker : Bool
  evt_cb : Option evt_cb_fn
  client_id : mqtt_utf8
  protocol_version : Nat
  sock : Int
  deriving DecidableEq, Repr

/-- The globals of main.c together with the trace of calls made so far. -/
structure World where
  trace : List Call
  client : mqtt_client
  broker : sockaddr_in
  fds0 : zsock_pollfd
  netif_ready : Nat
  deriving DecidableEq, Repr

/-- The platform: header constants and the behaviour of every external call.
The functions of `List Call` receive the trace up to and including the call
they answer. -/
structure Zephyr where
  ZSOCK_POLLIN : Nat
  NET_EVENT_IPV4_DHCP_BOUND : Nat
  AF_INET : Nat
  MQTT_VERSION_3_1_1 : Nat
  htons : Nat → Nat
  /-- the int an external call returns -/
  ret : List Call → Int
  /-- the value of k_cycle_get_32 -/
  cycles : List Call → Nat
  /-- indeterminate content of uninitialised automatic storage -/
  indeterminate : List Call → Nat → Nat
  /-- the struct mqtt_client_init leaves behind -/
  init_client : List Call → mqtt_client
  /-- the address net_addr_pton stores -/
  addr : List Call → Nat
  /-- transport.tcp.sock after mqtt_connect -/
  sock : List Call → Int
  /-- fds[0].revents after zsock_poll -/
  revents : List Call → Nat
  /-- events the library hands to evt_cb during mqtt_input or mqtt_live -/
  events : List Call → List mqtt_evt
  /-- what net_if_get_default returns (none is NULL) -/
  default_iface : List Call → Option Nat
  /-- management events delivered to the registered callback before the
  caller reaches k_sem_take -/
  early_events : List Nat
  /-- management events delivered, one at a time, while the caller is
  suspended in k_sem_take -/
  late_events : List Nat

/-- Record a call. -/
def World.call (w : World) (c : Call) : World := { w with trace := w.trace ++ [c] }

/-- The calls made between `w` and a later `w'`. -/
def calls_since (w w' : World) : List Call := w'.trace.drop w.trace.length

/-! ## LED functions -/

def turn_on_led (w : World) : World := w.call (.gpio_pin_set_dt 1)

def turn_off_led (w : World) : World := w.call (.gpio_pin_set_dt 0)

/-! ## MQTT functions -/

def mqtt_subscribe_topics (z : Zephyr) (w : World) : World :=
  let led_topic : mqtt_topic :=
    { topic := { utf8 := LED_TOPIC, size := strlen LED_TOPIC },
      qos := .MQTT_QOS_0_AT_MOST_ONCE }
  let w1 := w.call (.mqtt_subscribe [led_topic] 1 1234)
  let rc := z.ret w1.trace
  if rc ≠ 0 then
    w1.call (.LOG_ERR "Failed to subscribe to topics, error: %d" [rc])
  else
    w1.call (.LOG_INF "Subscribed to topics" [])

def mqtt_event_handler (z : Zephyr) (w : World) (evt : mqtt_evt) : World :=
  match evt.type with
  | .MQTT_EVT_CONNACK =>
    mqtt_subscribe_topics z (w.call (.LOG_INF "MQTT connected!" []))
  | .MQTT_EVT_PUBLISH =>
    let p := evt.param.publish
    if strncmp p.message.topic.topic.utf8 LED_TOPIC p.message.topic.topic.size = 0 then
      if strncmp p.message.payload.data (cstr "on") p.message.payload.len = 0 then
        turn_on_led w
      else if strncmp p.message.payload.data (cstr "off") p.message.payload.len = 0 then
        turn_off_led w
      else w
    else w
  | .MQTT_EVT_DISCONNECT =>
    w.call (.LOG_ERR "MQTT disconnected!" [])
  | .MQTT_EVT_PUBACK =>
    if evt.result ≠ 0 then
      w.call (.LOG_ERR "MQTT PUBACK error %d" [evt.result])
    else
      w.call (.LOG_INF "PUBACK packet id: %u" [evt.param.puback.message_id])
  | .MQTT_EVT_PUBREC =>
    if evt.result ≠ 0 then
      w.call (.LOG_ERR "MQTT PUBREC error %d" [evt.result])
    else
      let w1 := w.call (.LOG_INF "PUBREC packet id: %u" [evt.param.pubrec.message_id])
      let w2 := w1.call (.mqtt_publish_qos2_release evt.param.pubrec.message_id)
      let err := z.ret w2.trace
      if err ≠ 0 then
        w2.call (.LOG_ERR "Failed to send MQTT PUBREL: %d" [err])
      else w2
  | .MQTT_EVT_PUBCOMP =>
    if evt.result ≠ 0 then
      w.call (.LOG_ERR "MQTT PUBCOMP error %d" [evt.result])
    else
      w.call (.LOG_INF "PUBCOMP packet id: %u" [evt.param.pubcomp.message_id])
  | .MQTT_EVT_PINGRESP =>
    w.call (.LOG_INF "PINGRESP packet" [])
  | _ => w

/-- A sequence of protocol events handed to the handler in arrival order. -/
def mqtt_event_handler_seq (z : Zephyr) (w : World) (evts : List mqtt_evt) : World :=
  evts.foldl (mqtt_event_handler z) w

def mqtt_publish_button_event (z : Zephyr) (w : World) : World :=
  let param : mqtt_publish_param :=
    { message :=
        { topic :=
            { topic := { utf8 := BUTTON_TOPIC, size := strlen BUTTON_TOPIC },
              qos := .MQTT_QOS_0_AT_MOST_ONCE },
          payload :=
            { data := cstr "Button Pressed", len := strlen (cstr "Button Pressed") } },
      message_id := z.indeterminate w.trace 0,
      dup_flag := z.indeterminate w.trace 1 % 2,
      retain_flag := 0 }
  let w1 := w.call (.mqtt_publish param)
  let rc := z.ret w1.trace
  if rc ≠ 0 then
    w1.call (.LOG_ERR "Failed to publish message, error: %d" [rc])
  else
    w1.call (.LOG_INF "Button press event published" [])

/-- The GPIO callback; its three arguments are not used. -/
def button_pressed (z : Zephyr) (w : World) (_dev _cb _pins : Nat) : World :=
  let w1 := w.call .k_cycle_get_32
  let w2 := w1.call (.printk "Button pressed at %u\n" [z.cycles w1.trace])
  mqtt_publish_button_event z w2

def mqtt_connect_function (z : Zephyr) (w : World) : World :=
  let w1 := w.call .mqtt_client_init
  let w2 := { w1 with client := z.init_client w1.trace }
  let w3 := { w2 with client :=
    { w2.client with
      broker := true,
      evt_cb := some .mqtt_event_handler,
      client_id := { utf8 := MQTT_CLIENT_ID, size := strlen MQTT_CLIENT_ID },
      protocol_version := z.MQTT_VERSION_3_1_1 } }
  let w4 := { w3 with broker :=
    { w3.broker with sin_family := z.AF_INET, sin_port := z.htons MQTT_BROKER_PORT } }
  let w5 := w4.call (.net_addr_pton z.AF_INET MQTT_BROKER_ADDR)
  let w6 := { w5 with broker := { w5.broker with sin_addr := z.addr w5.trace } }
  if z.ret w5.trace < 0 then
    w6.call (.LOG_ERR "Failed to convert broker address" [])
  else
    let w7 := w6.call .mqtt_connect
    let w8 := { w7 with client := { w7.client with sock := z.sock w7.trace } }
    let rc := z.ret w7.trace
    if rc ≠ 0 then
      w8.call (.LOG_ERR "MQTT connect failed: %d" [rc])
    else
      let w9 := w8.call (.LOG_INF "MQTT connection request sent" [])
      { w9 with fds0 := { w9.fds0 with fd := w9.client.sock, events := z.ZSOCK_POLLIN } }

/-- What net_addr_pton returns when mqtt_connect_function runs from `w`. -/
def pton_ret (z : Zephyr) (w : World) : Int :=
  z.ret (w.trace ++ [.mqtt_client_init] ++ [.net_addr_pton z.AF_INET MQTT_BROKER_ADDR])

/-- What mqtt_connect returns when mqtt_connect_function, run from `w`, reaches it. -/
def connect_ret (z : Zephyr) (w : World) : Int :=
  z.ret (w.trace ++ [.mqtt_client_init] ++ [.net_addr_pton z.AF_INET MQTT_BROKER_ADDR]
    ++ [.mqtt_connect])

/-! ## Wifi functions -/

/-- Zephyr `k_sem_give` on `netif_ready`, defined by `K_SEM_DEFINE(netif_ready, 0, 1)`:
the count goes up by one unless it is at the limit 1. -/
def k_sem_give (w : World) : World :=
  let w1 := w.call .k_sem_give
  { w1 with netif_ready := if w1.netif_ready < 1 then w1.netif_ready + 1 else w1.netif_ready }

/-- The management-event callback; the delivery itself is recorded in the trace. -/
def handler_cb (z : Zephyr) (w : World) (mgmt_event : Nat) : World :=
  let w1 := w.call (.handler_cb mgmt_event)
  if mgmt_event ≠ z.NET_EVENT_IPV4_DHCP_BOUND then w1
  else k_sem_give w1

/-- Zephyr `k_sem_take(&netif_ready, K_FOREVER)`: returns once the count is
positive, taking one; until then the caller stays suspended while the events of
the first argument are delivered to `handler_cb` one by one. `none`: the count
is still zero when no further event arrives, the caller is suspended for ever. -/
def k_sem_take (z : Zephyr) : List Nat → World → Option World
  | [], w =>
    if 0 < w.netif_ready then some { w with netif_ready := w.netif_ready - 1 } else none
  | ev :: rest, w =>
    if 0 < w.netif_ready then some { w with netif_ready := w.netif_ready - 1 }
    else k_sem_take z rest (handler_cb z w ev)

/-- Bring-up of the network interface. From net_mgmt_add_event_callback on the
callback is live: the events of `z.early_events` reach it before the caller
waits, those of `z.late_events` while it waits. `none`: never returns. -/
def wifi_interface_init_function (z : Zephyr) (w : World) : Option World :=
  let w1 := w.call (.net_mgmt_init_event_callback z.NET_EVENT_IPV4_DHCP_BOUND)
  let w2 := w1.call .net_mgmt_add_event_callback
  let w3 := z.early_events.foldl (handler_cb z) w2
  let w4 := w3.call .net_if_get_default
  match z.default_iface w4.trace with
  | none => some (w4.call (.LOG_ERR "wifi interface not available" []))
  | some _ =>
    let w5 := w4.call .net_dhcpv4_start
    let w6 := w5.call .k_sem_take
    k_sem_take z z.late_events w6

/-- The state in which wifi_interface_init_function, run from `w`, calls
net_if_get_default: the callback is registered and the early events have been
delivered. -/
def registered (z : Zephyr) (w : World) : World :=
  z.early_events.foldl (handler_cb z)
    ((w.call (.net_mgmt_init_event_callback z.NET_EVENT_IPV4_DHCP_BOUND)).call
      .net_mgmt_add_event_callback)

/-- What net_if_get_default returns when wifi_interface_init_function runs
from `w`. -/
def iface_found (z : Zephyr) (w : World) : Option Nat :=
  z.default_iface ((registered z w).call .net_if_get_default).trace

/-- The trace entries of a delivery to handler_cb. -/
def Call.isDelivery : Call → Bool
  | .handler_cb _ => true
  | .k_sem_give => true
  | _ => false

/-- Since `w0` the trace of `x` only grew, and the semaphore of `x` is
available only if an address-assignment event was delivered meanwhile. -/
def Bound_seen (z : Zephyr) (w0 x : World) : Prop :=
  ∃ cs, x.trace = w0.trace ++ cs ∧
    (0 < x.netif_ready → Call.handler_cb z.NET_EVENT_IPV4_DHCP_BOUND ∈ cs)

/-! ## The loop of `main` -/

/-- The library hands events to the registered event callback. -/
def deliver (z : Zephyr) (w : World) (evts : List mqtt_evt) : World :=
  match w.client.evt_cb with
  | some .mqtt_event_handler => mqtt_event_handler_seq z w evts
  | none => w

/-- Library call `mqtt_input(&client)`, with the callbacks it makes. -/
def mqtt_input (z : Zephyr) (w : World) : World :=
  let w1 := w.call .mqtt_input
  deliver z w1 (z.events w1.trace)

/-- Library call `mqtt_live(&client)`, with the callbacks it makes. -/
def mqtt_live (z : Zephyr) (w : World) : World :=
  let w1 := w.call .mqtt_live
  deliver z w1 (z.events w1.trace)

/-- How a C statement ends. -/
inductive Ctl where
  | normal
  | cont
  | brk
  | ret
  deriving DecidableEq, Repr

/-- The body of `while (1)` in main. -/
def main_loop_body (z : Zephyr) (w : World) : Ctl × World :=
  let w1 := w.call (.zsock_poll 1 1000)
  let w2 := { w1 with fds0 := { w1.fds0 with revents := z.revents w1.trace } }
  let rc := z.ret w1.trace
  if rc < 0 then
    (.cont, w2.call (.LOG_ERR "Error in poll: %d" [rc]))
  else
    let w3 := if w2.fds0.revents &&& z.ZSOCK_POLLIN ≠ 0 then mqtt_input z w2 else w2
    (.normal, mqtt_live z w3)

/-- The loop `while (1)` of main run for at most `fuel` iterations: the state
reached, and whether the loop was left (by break or return) before that. -/
def main_loop (z : Zephyr) : Nat → World → Bool × World
  | 0, w => (false, w)
  | fuel + 1, w =>
    match main_loop_body z w with
    | (.brk, w1) => (true, w1)
    | (.ret, w1) => (true, w1)
    | (_, w1) => main_loop z fuel w1

/-- What zsock_poll returns in the iteration that starts from `w`. -/
def poll_ret (z : Zephyr) (w : World) : Int :=
  z.ret (w.trace ++ [.zsock_poll 1 1000])

/-- The value of fds[0].revents after the zsock_poll of the iteration that
starts from `w`. -/
def poll_revents (z : Zephyr) (w : World) : Nat :=
  z.revents (w.trace ++ [.zsock_poll 1 1000])

/-- The state right after the zsock_poll of the iteration that starts from `w`. -/
def polled (z : Zephyr) (w : World) : World :=
  { w with trace := w.trace ++ [.zsock_poll 1 1000],
           fds0 := { w.fds0 with revents := poll_revents z w } }

/-- The calls of the loop itself: poll, input, keep-alive. -/
def Call.isLoop : Call → Bool
  | .zsock_poll _ _ => true
  | .mqtt_input => true
  | .mqtt_live => true
  | _ => false

/-- Logging calls. -/
def Call.isLog : Call → Bool
  | .printk _ _ => true
  | .LOG_ERR _ _ => true
  | .LOG_INF _ _ => true
  | _ => false

/-- The calls the event handler can make. -/
def Call.isHandler : Call → Bool
  | .LOG_ERR _ _ => true
  | .LOG_INF _ _ => true
  | .gpio_pin_set_dt _ => true
  | .mqtt_subscribe _ _ _ => true
  | .mqtt_publish_qos2_release _ => true
  | _ => false

/-- From `w` to `w1` only the trace changed, by appending calls that all
satisfy `P`. -/
def Adds (P : Call → Prop) (w w1 : World) : Prop :=
  w1.client = w.client ∧ w1.broker = w.broker ∧ w1.fds0 = w.fds0 ∧
  w1.netif_ready = w.netif_ready ∧ ∃ cs, w1.trace = w.trace ++ cs ∧ ∀ c ∈ cs, P c

/-! ## Concrete platforms and states used by the closed theorems -/

/-- A platform on which every call succeeds and nothing arrives; the header
constants have example values. -/
def quiet : Zephyr where
  ZSOCK_POLLIN := 1
  NET_EVENT_IPV4_DHCP_BOUND := 8
  AF_INET := 1
  MQTT_VERSION_3_1_1 := 4
  htons := fun p => p % 256 * 256 + p / 256
  ret := fun _ => 0
  cycles := fun _ => 0
  indeterminate := fun _ _ => 0
  init_client := fun _ => ⟨false, none, ⟨[], 0⟩, 4, -1⟩
  addr := fun _ => 0
  sock := fun _ => 3
  revents := fun _ => 0
  events := fun _ => []
  default_iface := fun _ => some 1
  early_events := []
  late_events := []

/-- The quiet platform, except that every call returns -1. -/
def poll_fails : Zephyr := { quiet with ret := fun _ => -1 }

/-- The quiet platform, except that every poll reports POLLIN and every
mqtt_input or mqtt_live hands a successful CONNACK to the event callback. -/
def readable : Zephyr :=
  { quiet with
    revents := fun _ => 1,
    events := fun _ =>
      [⟨.MQTT_EVT_CONNACK,
        ⟨⟨⟨⟨⟨[], 0⟩, .MQTT_QOS_0_AT_MOST_ONCE⟩, ⟨[], 0⟩⟩, 0, 0, 0⟩, ⟨0⟩, ⟨0⟩, ⟨0⟩⟩, 0⟩] }

/-- The start state once mqtt_connect_function has registered the event callback. -/
def connected : World :=
  { trace := [],
    client := ⟨true, some .mqtt_event_handler, ⟨MQTT_CLIENT_ID, 13⟩, 4, 3⟩,
    broker := ⟨1, 23303, 0⟩,
    fds0 := ⟨3, 1, 0⟩,
    netif_ready := 0 }

/-- The quiet platform, except that there is no default network interface. -/
def no_iface : Zephyr := { quiet with default_iface := fun _ => none }

/-- The quiet platform, except that while the caller waits an unrelated
management event (5) and then the address-assignment event (8) arrive. -/
def dhcp_binds : Zephyr := { quiet with late_events := [5, 8] }

/-- The state at the start of main: nothing called, globals zeroed,
semaphore count 0. -/
def boot : World where
  trace := []
  client := ⟨false, none, ⟨[], 0⟩, 0, 0⟩
  broker := ⟨0, 0, 0⟩
  fds0 := ⟨0, 0, 0⟩
  netif_ready := 0

/-- A publish event with the given topic and payload. -/
def publish_evt (topic : mqtt_utf8) (payload : mqtt_binstr) : mqtt_evt where
  type := .MQTT_EVT_PUBLISH
  param :=
    { publish :=
        { message := { topic := { topic := topic, qos := .MQTT_QOS_0_AT_MOST_ONCE },
                       payload := payload },
          message_id := 0, dup_flag := 0, retain_flag := 0 },
      puback := ⟨0⟩, pubrec := ⟨0⟩, pubcomp := ⟨0⟩ }
  result := 0

/-- An event of the given type that carries only a message id and a result. -/
def ack_evt (t : mqtt_evt_type) (message_id : Nat) (result : Int) : mqtt_evt where
  type := t
  param :=
    { publish :=
        { message := { topic := { topic := ⟨[], 0⟩, qos := .MQTT_QOS_0_AT_MOST_ONCE },
                       payload := ⟨[], 0⟩ },
          message_id := 0, dup_flag := 0, retain_flag := 0 },
      puback := ⟨message_id⟩, pubrec := ⟨message_id⟩, pubcomp := ⟨message_id⟩ }
  result := result

/-! ## Basic facts -/

@[simp] theorem World.call_trace (w : World) (c : Call) :
    (w.call c).trace = w.trace ++ [c] := rfl

@[simp] theorem World.call_client (w : World) (c : Call) :
    (w.call c).client = w.client := rfl

@[simp] theorem World.call_fds0 (w : World) (c : Call) :
    (w.call c).fds0 = w.fds0 := rfl

@[simp] theorem World.call_netif_ready (w : World) (c : Call) :
    (w.call c).netif_ready = w.netif_ready := rfl

@[simp] theorem World.call_broker (w : World) (c : Call) :
    (w.call c).broker = w.broker := rfl

theorem calls_since_of_trace {w w1 : World} {cs : List Call}
    (h : w1.trace = w.trace ++ cs) : calls_since w w1 = cs := by
  simp [calls_since, h]

@[simp] theorem calls_since_self (w : World) : calls_since w w = [] := by
  simp [calls_since]

/-- The bytes behind the first `n` do not matter to `strncmp`. -/
theorem strncmp_append (n : Nat) : ∀ (s r t : List Nat), n ≤ s.length →
    strncmp (s ++ r) t n = strncmp s t n := by
  induction n with
  | zero => intro s r t _; simp [strncmp]
  | succ n ih =>
    intro s r t h
    cases s with
    | nil => simp at h
    | cons a s =>
      have h1 : n ≤ s.length := by simpa using h
      simp [strncmp, ih s r t.tail h1]

theorem Adds.refl (P : Call → Prop) (w : World) : Adds P w w :=
  ⟨rfl, rfl, rfl, rfl, [], by simp, by simp⟩

theorem Adds.call {P : Call → Prop} {w w1 : World} {c : Call}
    (h : Adds P w w1) (hc : P c) : Adds P w (w1.call c) := by
  obtain ⟨h1, h2, h3, h4, cs, h5, h6⟩ := h
  refine ⟨h1, h2, h3, h4, cs ++ [c], by simp [h5], ?_⟩
  intro d hd
  rcases List.mem_append.mp hd with hd | hd
  · exact h6 d hd
  · simp at hd; subst hd; exact hc

theorem Adds.trans {P : Call → Prop} {w w1 w2 : World}
    (h : Adds P w w1) (k : Adds P w1 w2) : Adds P w w2 := by
  obtain ⟨h1, h2, h3, h4, cs, h5, h6⟩ := h
  obtain ⟨k1, k2, k3, k4, ds, k5, k6⟩ := k
  refine ⟨k1.trans h1, k2.trans h2, k3.trans h3, k4.trans h4, cs ++ ds, by simp [k5, h5], ?_⟩
  intro d hd
  rcases List.mem_append.mp hd with hd | hd
  · exact h6 d hd
  · exact k6 d hd

/-- The event handler changes nothing but the trace, and adds only calls of
its own kinds. -/
theorem mqtt_event_handler_adds (z : Zephyr) (w : World) (evt : mqtt_evt) :
    Adds (fun c => c.isHandler = true) w (mqtt_event_handler z w evt) := by
  unfold mqtt_event_handler mqtt_subscribe_topics turn_on_led turn_off_led
  cases evt.type <;> dsimp only <;> (try split_ifs) <;>
    repeat (first | exact Adds.refl _ _ | apply Adds.call | rfl)

theorem mqtt_event_handler_seq_adds (z : Zephyr) (evts : List mqtt_evt) :
    ∀ w : World, Adds (fun c => c.isHandler = true) w (mqtt_event_handler_seq z w evts) := by
  induction evts with
  | nil => intro w; exact Adds.refl _ _
  | cons e es ih =>
    intro w
    exact (mqtt_event_handler_adds z w e).trans (ih (mqtt_event_handler z w e))

/-- How many releases of `id` one event adds to the trace. -/
theorem mqtt_event_handler_release_count (z : Zephyr) (w : World) (evt : mqtt_evt)
    (id : Nat) :
    (mqtt_event_handler z w evt).trace.count (.mqtt_publish_qos2_release id) =
      w.trace.count (.mqtt_publish_qos2_release id) +
        (if evt.type = .MQTT_EVT_PUBREC ∧ evt.result = 0 ∧
            evt.param.pubrec.message_id = id then 1 else 0) := by
  unfold mqtt_event_handler mqtt_subscribe_topics turn_on_led turn_off_led
  cases h : evt.type <;> dsimp only <;> (try split_ifs) <;>
    simp_all [List.count_append, List.count_cons, List.count_nil]

/-! ## C1 -/

/-- C1: a publish event on the actuator topic "device/led/status" (17 bytes at
topic.utf8, whatever follows them in memory) with payload "on" (length 2) makes
exactly one LED call, gpio set to 1; with payload "off" (length 3) exactly one,
gpio set to 0; with payload "toggle" (length 6) the handler makes no call at
all and leaves the whole program state as it was. -/
theorem publish_on_off_toggle (z : Zephyr) (w : World) (evt : mqtt_evt)
    (r1 r2 : List Nat)
    (htype : evt.type = .MQTT_EVT_PUBLISH)
    (htopic : evt.param.publish.message.topic.topic = ⟨LED_TOPIC ++ r1, 17⟩) :
    (evt.param.publish.message.payload = ⟨cstr "on" ++ r2, 2⟩ →
      calls_since w (mqtt_event_handler z w evt) = [.gpio_pin_set_dt 1]) ∧
    (evt.param.publish.message.payload = ⟨cstr "off" ++ r2, 3⟩ →
      calls_since w (mqtt_event_handler z w evt) = [.gpio_pin_set_dt 0]) ∧
    (evt.param.publish.message.payload = ⟨cstr "toggle" ++ r2, 6⟩ →
      mqtt_event_handler z w evt = w) := by
  have ht : strncmp (LED_TOPIC ++ r1) LED_TOPIC 17 = 0 := by
    rw [strncmp_append 17 LED_TOPIC r1 LED_TOPIC (by decide)]; decide
  refine ⟨?_, ?_, ?_⟩
  · intro hp
    have h1 : strncmp (cstr "on" ++ r2) (cstr "on") 2 = 0 := by
      rw [strncmp_append 2 _ r2 _ (by decide)]; decide
    apply calls_since_of_trace
    simp [mqtt_event_handler, htype, htopic, hp, ht, h1, turn_on_led]
  · intro hp
    have h1 : strncmp (cstr "off" ++ r2) (cstr "on") 3 ≠ 0 := by
      rw [strncmp_append 3 _ r2 _ (by decide)]; decide
    have h2 : strncmp (cstr "off" ++ r2) (cstr "off") 3 = 0 := by
      rw [strncmp_append 3 _ r2 _ (by decide)]; decide
    apply calls_since_of_trace
    simp [mqtt_event_handler, htype, htopic, hp, ht, h1, h2, turn_off_led]
  · intro hp
    have h1 : strncmp (cstr "toggle" ++ r2) (cstr "on") 6 ≠ 0 := by
      rw [strncmp_append 6 _ r2 _ (by decide)]; decide
    have h2 : strncmp (cstr "toggle" ++ r2) (cstr "off") 6 ≠ 0 := by
      rw [strncmp_append 6 _ r2 _ (by decide)]; decide
    simp [mqtt_event_handler, htype, htopic, hp, ht, h1, h2]

/-- C1 at a concrete event: "on" on the LED topic, NUL-terminated buffers. -/
theorem publish_on_off_toggle_witness :
    calls_since boot
        (mqtt_event_handler quiet boot
          (publish_evt ⟨LED_TOPIC ++ [0], 17⟩ ⟨cstr "on" ++ [0], 2⟩))
      = [.gpio_pin_set_dt 1] :=
  (publish_on_off_toggle quiet boot
    (publish_evt ⟨LED_TOPIC ++ [0], 17⟩ ⟨cstr "on" ++ [0], 2⟩) [0] [0] rfl rfl).1 rfl

/-! ## C2 -/

/-- C2 (evaluation at the failing inputs): on the actuator topic the empty
payload and the payload "o" each make the handler set the LED to 1, and the
payload "of" makes it set the LED to 0, because strncmp is bounded by the
payload length and so accepts every leading part of "on" and "off"; the four
payload bytes "on", NUL, "x" set the LED to 1, because strncmp stops at the
NUL. -/
theorem short_payload_drives_led :
    calls_since boot
        (mqtt_event_handler quiet boot (publish_evt ⟨LED_TOPIC, 17⟩ ⟨[], 0⟩))
      = [.gpio_pin_set_dt 1] ∧
    calls_since boot
        (mqtt_event_handler quiet boot (publish_evt ⟨LED_TOPIC, 17⟩ ⟨cstr "o", 1⟩))
      = [.gpio_pin_set_dt 1] ∧
    calls_since boot
        (mqtt_event_handler quiet boot (publish_evt ⟨LED_TOPIC, 17⟩ ⟨cstr "of", 2⟩))
      = [.gpio_pin_set_dt 0] ∧
    calls_since boot
        (mqtt_event_handler quiet boot
          (publish_evt ⟨LED_TOPIC, 17⟩ ⟨cstr "on" ++ [0] ++ cstr "x", 4⟩))
      = [.gpio_pin_set_dt 1] := by
  refine ⟨?_, ?_, ?_, ?_⟩ <;> decide

/-! ## C3 -/

theorem mqtt_event_handler_seq_release_count (z : Zephyr) (id : Nat)
    (evts : List mqtt_evt) : ∀ w : World,
    (mqtt_event_handler_seq z w evts).trace.count (.mqtt_publish_qos2_release id) =
      w.trace.count (.mqtt_publish_qos2_release id) +
        evts.countP (fun e => decide (e.type = .MQTT_EVT_PUBREC ∧ e.result = 0 ∧
          e.param.pubrec.message_id = id)) := by
  induction evts with
  | nil => intro w; simp [mqtt_event_handler_seq]
  | cons e es ih =>
    intro w
    have h := ih (mqtt_event_handler z w e)
    simp only [mqtt_event_handler_seq, List.foldl_cons] at h ⊢
    rw [h, mqtt_event_handler_release_count, List.countP_cons]
    simp only [decide_eq_true_eq]
    omega

/-- C3 (as stated, refuted): the same successful PUBREC for message id 7
observed twice is released twice. -/
theorem duplicate_pubrec_released_twice :
    (calls_since boot
        (mqtt_event_handler_seq quiet boot
          [ack_evt .MQTT_EVT_PUBREC 7 0, ack_evt .MQTT_EVT_PUBREC 7 0])).count
      (.mqtt_publish_qos2_release 7) = 2 := by
  decide

/-- C3 (amended): for every sequence of protocol events fed to the handler,
the number of release calls for a message id equals the number of PUBREC
events with result 0 that carry this id (no record of released ids is kept);
a PUBREC with a non-zero result and a PUBCOMP, first or repeated, make no MQTT
call. -/
theorem release_per_successful_pubrec (z : Zephyr) (w : World) (evts : List mqtt_evt)
    (id : Nat) :
    (calls_since w (mqtt_event_handler_seq z w evts)).count (.mqtt_publish_qos2_release id)
      = evts.countP (fun e => decide (e.type = .MQTT_EVT_PUBREC ∧ e.result = 0 ∧
          e.param.pubrec.message_id = id)) ∧
    (∀ e : mqtt_evt, e.type = .MQTT_EVT_PUBREC → e.result ≠ 0 →
      (calls_since w (mqtt_event_handler z w e)).filter Call.isMqtt = []) ∧
    (∀ e : mqtt_evt, e.type = .MQTT_EVT_PUBCOMP →
      (calls_since w (mqtt_event_handler z w e)).filter Call.isMqtt = []) := by
  refine ⟨?_, ?_, ?_⟩
  · obtain ⟨_, _, _, _, cs, h, _⟩ := mqtt_event_handler_seq_adds z evts w
    have hc := mqtt_event_handler_seq_release_count z id evts w
    rw [h, List.count_append] at hc
    rw [calls_since_of_trace h]
    omega
  · intro e he hr
    have h : (mqtt_event_handler z w e).trace =
        w.trace ++ [.LOG_ERR "MQTT PUBREC error %d" [e.result]] := by
      simp [mqtt_event_handler, he, hr]
    rw [calls_since_of_trace h]; rfl
  · intro e he
    by_cases hr : e.result = 0
    · have h : (mqtt_event_handler z w e).trace =
          w.trace ++ [.LOG_INF "PUBCOMP packet id: %u" [e.param.pubcomp.message_id]] := by
        simp [mqtt_event_handler, he, hr]
      rw [calls_since_of_trace h]; rfl
    · have h : (mqtt_event_handler z w e).trace =
          w.trace ++ [.LOG_ERR "MQTT PUBCOMP error %d" [e.result]] := by
        simp [mqtt_event_handler, he, hr]
      rw [calls_since_of_trace h]; rfl

/-- C3 (amended) at a concrete sequence: PUBREC 7, PUBCOMP 7, PUBREC 7 again,
and a failed PUBREC 7 give two releases of id 7; a PUBCOMP sends nothing. -/
theorem release_per_successful_pubrec_witness :
    (calls_since boot
        (mqtt_event_handler_seq quiet boot
          [ack_evt .MQTT_EVT_PUBREC 7 0, ack_evt .MQTT_EVT_PUBCOMP 7 0,
           ack_evt .MQTT_EVT_PUBREC 7 0, ack_evt .MQTT_EVT_PUBREC 7 (-5)])).count
      (.mqtt_publish_qos2_release 7) = 2 ∧
    (calls_since boot
        (mqtt_event_handler quiet boot (ack_evt .MQTT_EVT_PUBREC 7 (-5)))).filter
      Call.isMqtt = [] ∧
    (calls_since boot
        (mqtt_event_handler quiet boot (ack_evt .MQTT_EVT_PUBCOMP 7 0))).filter
      Call.isMqtt = [] :=
  have h := release_per_successful_pubrec quiet boot
    [ack_evt .MQTT_EVT_PUBREC 7 0, ack_evt .MQTT_EVT_PUBCOMP 7 0,
     ack_evt .MQTT_EVT_PUBREC 7 0, ack_evt .MQTT_EVT_PUBREC 7 (-5)] 7
  ⟨h.1.trans (by decide),
   h.2.1 (ack_evt .MQTT_EVT_PUBREC 7 (-5)) rfl (by decide),
   h.2.2 (ack_evt .MQTT_EVT_PUBCOMP 7 0) rfl⟩

/-! ## C4 -/

/-- C4: handling a CONNACK event makes, logging aside, exactly one call: one
mqtt_subscribe whose list is ["device/led/status" (size 17) at QoS 0], with
list_count 1; no publish, release or LED call is made. -/
theorem connack_subscribes_once (z : Zephyr) (w : World) (evt : mqtt_evt)
    (htype : evt.type = .MQTT_EVT_CONNACK) :
    (calls_since w (mqtt_event_handler z w evt)).filter (fun c => !c.isLog) =
      [.mqtt_subscribe
        [⟨⟨cstr "device/led/status", 17⟩, .MQTT_QOS_0_AT_MOST_ONCE⟩] 1 1234] := by
  have hlen : strlen (cstr "device/led/status") = 17 := by decide
  simp only [mqtt_event_handler, htype, mqtt_subscribe_topics]
  split_ifs <;> simp [calls_since, Call.isLog, LED_TOPIC, hlen]

/-- C4 at a concrete event: a successful CONNACK at start-up. -/
theorem connack_subscribes_once_witness :
    (calls_since boot
        (mqtt_event_handler quiet boot (ack_evt .MQTT_EVT_CONNACK 0 0))).filter
      (fun c => !c.isLog) =
      [.mqtt_subscribe
        [⟨⟨cstr "device/led/status", 17⟩, .MQTT_QOS_0_AT_MOST_ONCE⟩] 1 1234] :=
  connack_subscribes_once quiet boot (ack_evt .MQTT_EVT_CONNACK 0 0) rfl

/-! ## C5 -/

/-- C5 (evaluation at the failing input): a CONNACK event whose result is
-111 (connection refused) is handled like a successful one: nothing is
reported at error level and the subscribe request is sent. -/
theorem rejected_connack_still_subscribes :
    calls_since boot
        (mqtt_event_handler quiet boot (ack_evt .MQTT_EVT_CONNACK 0 (-111))) =
      [.LOG_INF "MQTT connected!" [],
       .mqtt_subscribe
         [⟨⟨cstr "device/led/status", 17⟩, .MQTT_QOS_0_AT_MOST_ONCE⟩] 1 1234,
       .LOG_INF "Subscribed to topics" []] := by
  decide

/-! ## C6 -/

theorem calls_since_call4 (w : World) (a b c d : Call) :
    calls_since w ((((w.call a).call b).call c).call d) = [a, b, c, d] := by
  simp [calls_since]

/-- C6: for every platform behaviour, every program state and every dev, cb
and pins argument, the calls button_pressed makes are: the cycle counter read,
one printk, exactly one mqtt_publish - topic "device/button/press" (size 19),
QoS 0, payload "Button Pressed" (length 14), retain flag 0 - and one closing
log line; so the MQTT and GPIO calls are that single publish, also when the
publish returns a non-zero error. -/
theorem button_pressed_publishes_once (z : Zephyr) (w : World) (dev cb pins : Nat) :
    ∃ (message_id dup_flag : Nat) (log : Call),
      log.isLog = true ∧
      calls_since w (button_pressed z w dev cb pins) =
        [.k_cycle_get_32,
         .printk "Button pressed at %u\n" [(z.cycles (w.trace ++ [.k_cycle_get_32]) : Int)],
         .mqtt_publish
           ⟨⟨⟨⟨cstr "device/button/press", 19⟩, .MQTT_QOS_0_AT_MOST_ONCE⟩,
              ⟨cstr "Button Pressed", 14⟩⟩, message_id, dup_flag, 0⟩,
         log] ∧
      (calls_since w (button_pressed z w dev cb pins)).filter
          (fun c => c.isMqtt || c.isGpio) =
        [.mqtt_publish
           ⟨⟨⟨⟨cstr "device/button/press", 19⟩, .MQTT_QOS_0_AT_MOST_ONCE⟩,
              ⟨cstr "Button Pressed", 14⟩⟩, message_id, dup_flag, 0⟩] := by
  have h19 : strlen (cstr "device/button/press") = 19 := by decide
  have h14 : strlen (cstr "Button Pressed") = 14 := by decide
  simp only [button_pressed, mqtt_publish_button_event, BUTTON_TOPIC, h19, h14]
  split_ifs with hr
  · exact ⟨_, _, .LOG_ERR "Failed to publish message, error: %d" [_], rfl,
      calls_since_call4 w _ _ _ _, by rw [calls_since_call4]; rfl⟩
  · exact ⟨_, _, .LOG_INF "Button press event published" [], rfl,
      calls_since_call4 w _ _ _ _, by rw [calls_since_call4]; rfl⟩

/-! ## C7 -/

/-- C7: when net_addr_pton returns a negative value, mqtt_connect_function
does not call mqtt_connect and leaves fds[0] as it was; otherwise it calls
mqtt_connect exactly once, and then fds[0] gets fd = the client socket and
events = ZSOCK_POLLIN (revents untouched) if mqtt_connect returned 0, and is
left as it was if mqtt_connect returned anything else. -/
theorem connect_only_after_address_parses (z : Zephyr) (w : World) :
    (pton_ret z w < 0 →
      (calls_since w (mqtt_connect_function z w)).count .mqtt_connect = 0 ∧
      (mqtt_connect_function z w).fds0 = w.fds0) ∧
    (¬ pton_ret z w < 0 →
      (calls_since w (mqtt_connect_function z w)).count .mqtt_connect = 1 ∧
      (connect_ret z w = 0 →
        (mqtt_connect_function z w).fds0 =
          { w.fds0 with fd := (mqtt_connect_function z w).client.sock,
                        events := z.ZSOCK_POLLIN }) ∧
      (connect_ret z w ≠ 0 → (mqtt_connect_function z w).fds0 = w.fds0)) := by
  unfold pton_ret connect_ret
  simp only [List.append_assoc, List.cons_append, List.nil_append]
  refine ⟨fun h => ?_, fun h => ⟨?_, fun h0 => ?_, fun h0 => ?_⟩⟩
  · simp [mqtt_connect_function, World.call, calls_since, h]
  · by_cases h0 : z.ret (w.trace ++ [.mqtt_client_init,
        .net_addr_pton z.AF_INET MQTT_BROKER_ADDR, .mqtt_connect]) = 0
    · simp [mqtt_connect_function, World.call, calls_since, h, h0]
    · simp [mqtt_connect_function, World.call, calls_since, h, h0]
  · simp [mqtt_connect_function, World.call, h, h0]
  · simp [mqtt_connect_function, World.call, h, h0]

/-- C7 on the quiet platform from the start state: the address parses, the
connect succeeds, and fds[0] is armed with socket 3 and POLLIN. -/
theorem connect_only_after_address_parses_witness :
    (calls_since boot (mqtt_connect_function quiet boot)).count .mqtt_connect = 1 ∧
    (mqtt_connect_function quiet boot).fds0 = ⟨3, quiet.ZSOCK_POLLIN, 0⟩ :=
  have h := (connect_only_after_address_parses quiet boot).2 (by decide)
  ⟨h.1, (h.2.1 (by decide)).trans (by decide)⟩

/-! ## The loop of main: C8 and C10 -/

theorem filter_isLoop_of_isHandler {cs : List Call}
    (h : ∀ c ∈ cs, c.isHandler = true) : cs.filter Call.isLoop = [] := by
  rw [List.filter_eq_nil_iff]
  intro c hc
  have := h c hc
  cases c <;> simp_all [Call.isHandler, Call.isLoop]

theorem deliver_adds (z : Zephyr) (w : World) (evts : List mqtt_evt) :
    Adds (fun c => c.isHandler = true) w (deliver z w evts) := by
  unfold deliver
  split
  · exact mqtt_event_handler_seq_adds z evts w
  · exact Adds.refl _ _

/-- The library call mqtt_input adds itself and then only handler calls. -/
theorem mqtt_input_trace (z : Zephyr) (w : World) :
    ∃ cs, (mqtt_input z w).trace = w.trace ++ .mqtt_input :: cs ∧
      cs.filter Call.isLoop = [] := by
  obtain ⟨_, _, _, _, cs, h, hcs⟩ := deliver_adds z (w.call .mqtt_input)
    (z.events (w.call .mqtt_input).trace)
  have h1 : (mqtt_input z w).trace = (w.call .mqtt_input).trace ++ cs := h
  exact ⟨cs, by simp [h1], filter_isLoop_of_isHandler hcs⟩

/-- The library call mqtt_live adds itself and then only handler calls. -/
theorem mqtt_live_trace (z : Zephyr) (w : World) :
    ∃ cs, (mqtt_live z w).trace = w.trace ++ .mqtt_live :: cs ∧
      cs.filter Call.isLoop = [] := by
  obtain ⟨_, _, _, _, cs, h, hcs⟩ := deliver_adds z (w.call .mqtt_live)
    (z.events (w.call .mqtt_live).trace)
  have h1 : (mqtt_live z w).trace = (w.call .mqtt_live).trace ++ cs := h
  exact ⟨cs, by simp [h1], filter_isLoop_of_isHandler hcs⟩

theorem main_loop_body_eq (z : Zephyr) (w : World) :
    main_loop_body z w =
      if poll_ret z w < 0 then
        (.cont, (polled z w).call (.LOG_ERR "Error in poll: %d" [poll_ret z w]))
      else
        (.normal, mqtt_live z
          (if poll_revents z w &&& z.ZSOCK_POLLIN ≠ 0 then mqtt_input z (polled z w)
           else polled z w)) := rfl

/-- One iteration: how it ends, and its calls to poll, input and keep-alive. -/
theorem main_loop_body_spec (z : Zephyr) (w : World) :
    ∃ cs, (main_loop_body z w).2.trace = w.trace ++ cs ∧
      (main_loop_body z w).1 = (if poll_ret z w < 0 then Ctl.cont else Ctl.normal) ∧
      cs.filter Call.isLoop =
        (if poll_ret z w < 0 then [.zsock_poll 1 1000]
         else if poll_revents z w &&& z.ZSOCK_POLLIN ≠ 0 then
           [.zsock_poll 1 1000, .mqtt_input, .mqtt_live]
         else [.zsock_poll 1 1000, .mqtt_live]) := by
  rw [main_loop_body_eq]
  have hp : (polled z w).trace = w.trace ++ [.zsock_poll 1 1000] := rfl
  by_cases hrc : poll_ret z w < 0
  · refine ⟨[.zsock_poll 1 1000, .LOG_ERR "Error in poll: %d" [poll_ret z w]], ?_, ?_, ?_⟩
    · simp [hrc, hp]
    · simp [hrc]
    · simp [hrc, Call.isLoop]
  · by_cases hin : poll_revents z w &&& z.ZSOCK_POLLIN ≠ 0
    · obtain ⟨cs1, h1, f1⟩ := mqtt_input_trace z (polled z w)
      obtain ⟨cs2, h2, f2⟩ := mqtt_live_trace z (mqtt_input z (polled z w))
      refine ⟨.zsock_poll 1 1000 :: .mqtt_input :: cs1 ++ .mqtt_live :: cs2, ?_, ?_, ?_⟩
      · simp only [if_neg hrc, if_pos hin]
        rw [h2, h1, hp]; simp
      · simp [hrc]
      · simp [hrc, hin, List.filter_cons, List.filter_append, Call.isLoop, f1, f2]
    · obtain ⟨cs2, h2, f2⟩ := mqtt_live_trace z (polled z w)
      refine ⟨.zsock_poll 1 1000 :: .mqtt_live :: cs2, ?_, ?_, ?_⟩
      · simp only [if_neg hrc, if_neg hin]
        rw [h2, hp]; simp
      · simp [hrc]
      · simp [hrc, hin, List.filter_cons, Call.isLoop, f2]

theorem count_eq_count_filter_isLoop (c : Call) (hc : c.isLoop = true) (cs : List Call) :
    cs.count c = (cs.filter Call.isLoop).count c :=
  (List.count_filter hc).symm

/-- C8 (as stated, refuted): an iteration whose poll returns -1 does not call
mqtt_live. -/
theorem poll_error_skips_keep_alive :
    (calls_since connected (main_loop_body poll_fails connected).2).count .mqtt_live = 0 := by
  decide

/-- C8 (amended): an iteration of the loop of main whose zsock_poll returns a
non-negative value calls mqtt_live exactly once, whether or not data arrived,
and calls mqtt_input once if POLLIN is set in fds[0].revents and not at all
otherwise; an iteration whose zsock_poll returns a negative value logs the
error and calls neither: its calls are exactly the poll and then
LOG_ERR "Error in poll: %d" with the value returned. -/
theorem keep_alive_once_per_successful_poll (z : Zephyr) (w : World) :
    (0 ≤ poll_ret z w →
      (calls_since w (main_loop_body z w).2).count .mqtt_live = 1 ∧
      (calls_since w (main_loop_body z w).2).count .mqtt_input =
        if poll_revents z w &&& z.ZSOCK_POLLIN ≠ 0 then 1 else 0) ∧
    (poll_ret z w < 0 →
      (calls_since w (main_loop_body z w).2).count .mqtt_live = 0 ∧
      (calls_since w (main_loop_body z w).2).count .mqtt_input = 0 ∧
      calls_since w (main_loop_body z w).2 =
        [.zsock_poll 1 1000, .LOG_ERR "Error in poll: %d" [poll_ret z w]]) := by
  obtain ⟨cs, h, _, hf⟩ := main_loop_body_spec z w
  constructor
  · intro hrc
    rw [calls_since_of_trace h, count_eq_count_filter_isLoop .mqtt_live rfl,
      count_eq_count_filter_isLoop .mqtt_input rfl, hf]
    have hrc1 : ¬ poll_ret z w < 0 := not_lt.mpr hrc
    by_cases hin : poll_revents z w &&& z.ZSOCK_POLLIN ≠ 0
    · simp only [if_neg hrc1, if_pos hin]; decide
    · simp only [if_neg hrc1, if_neg hin]; decide
  · intro hrc
    have ht : calls_since w (main_loop_body z w).2 =
        [.zsock_poll 1 1000, .LOG_ERR "Error in poll: %d" [poll_ret z w]] := by
      rw [main_loop_body_eq, if_pos hrc]
      simp [calls_since, polled]
    refine ⟨?_, ?_, ht⟩
    · rw [ht]; rfl
    · rw [ht]; rfl

/-- C8 (amended) on concrete platforms: where the poll succeeds and reports
POLLIN, one mqtt_live and one mqtt_input in the iteration; where the poll
returns -1, no mqtt_live, and the calls are the poll and the error log. -/
theorem keep_alive_once_per_successful_poll_witness :
    (calls_since connected (main_loop_body readable connected).2).count .mqtt_live = 1 ∧
    (calls_since connected (main_loop_body readable connected).2).count .mqtt_input = 1 ∧
    (calls_since connected (main_loop_body poll_fails connected).2).count .mqtt_live = 0 ∧
    calls_since connected (main_loop_body poll_fails connected).2 =
      [.zsock_poll 1 1000, .LOG_ERR "Error in poll: %d" [-1]] :=
  have h := (keep_alive_once_per_successful_poll readable connected).1 (by decide)
  have k := (keep_alive_once_per_successful_poll poll_fails connected).2 (by decide)
  ⟨h.1, h.2.trans (by decide), k.1, k.2.2.trans (by decide)⟩

theorem main_loop_spec (z : Zephyr) (n : Nat) : ∀ w : World,
    ∃ cs, (main_loop z n w).2.trace = w.trace ++ cs ∧ (main_loop z n w).1 = false ∧
      cs.count (.zsock_poll 1 1000) = n := by
  induction n with
  | zero => intro w; exact ⟨[], by simp [main_loop], rfl, rfl⟩
  | succ n ih =>
    intro w
    obtain ⟨cs, h, hc, hf⟩ := main_loop_body_spec z w
    have h1 : cs.count (.zsock_poll 1 1000) = 1 := by
      rw [count_eq_count_filter_isLoop (.zsock_poll 1 1000) rfl, hf]
      split_ifs <;> decide
    have hstep : main_loop z (n + 1) w = main_loop z n (main_loop_body z w).2 := by
      rcases hb : main_loop_body z w with ⟨c, w1⟩
      rw [hb] at hc
      simp only [main_loop, hb]
      split_ifs at hc <;> simp only at hc <;> subst hc <;> rfl
    obtain ⟨ds, k, kc, kf⟩ := ih (main_loop_body z w).2
    refine ⟨cs ++ ds, ?_, ?_, ?_⟩
    · rw [hstep, k, h, List.append_assoc]
    · rw [hstep, kc]
    · rw [List.count_append, h1, kf, Nat.add_comm]

/-- C10: the body of the loop of main always ends by going on to the next
iteration, never by leaving the loop. When zsock_poll returns a negative value
the iteration makes exactly two calls, the poll and the error log, so neither
mqtt_input nor mqtt_live; when it returns a non-negative value and POLLIN is
set in revents, its poll, input and keep-alive calls are the poll, then
mqtt_input, then mqtt_live, once each; without POLLIN they are the poll and
then mqtt_live. Run for any number n of iterations, the loop has not been left
and has polled exactly n times. -/
theorem main_loop_body_by_poll_result (z : Zephyr) (w : World) :
    (poll_ret z w < 0 →
      (main_loop_body z w).1 = .cont ∧
      calls_since w (main_loop_body z w).2 =
        [.zsock_poll 1 1000, .LOG_ERR "Error in poll: %d" [poll_ret z w]]) ∧
    (0 ≤ poll_ret z w → poll_revents z w &&& z.ZSOCK_POLLIN ≠ 0 →
      (main_loop_body z w).1 = .normal ∧
      (calls_since w (main_loop_body z w).2).filter Call.isLoop =
        [.zsock_poll 1 1000, .mqtt_input, .mqtt_live]) ∧
    (0 ≤ poll_ret z w → poll_revents z w &&& z.ZSOCK_POLLIN = 0 →
      (main_loop_body z w).1 = .normal ∧
      (calls_since w (main_loop_body z w).2).filter Call.isLoop =
        [.zsock_poll 1 1000, .mqtt_live]) ∧
    (∀ n : Nat, (main_loop z n w).1 = false ∧
      (calls_since w (main_loop z n w).2).count (.zsock_poll 1 1000) = n) := by
  obtain ⟨cs, h, hc, hf⟩ := main_loop_body_spec z w
  refine ⟨fun hrc => ⟨?_, ?_⟩, fun hrc hin => ⟨?_, ?_⟩, fun hrc hin => ⟨?_, ?_⟩, fun n => ?_⟩
  · rw [hc, if_pos hrc]
  · rw [main_loop_body_eq, if_pos hrc]
    simp [calls_since, polled]
  · rw [hc, if_neg (not_lt.mpr hrc)]
  · rw [calls_since_of_trace h, hf, if_neg (not_lt.mpr hrc), if_pos hin]
  · rw [hc, if_neg (not_lt.mpr hrc)]
  · rw [calls_since_of_trace h, hf, if_neg (not_lt.mpr hrc), if_neg (not_not.mpr hin)]
  · obtain ⟨ds, k, kc, kf⟩ := main_loop_spec z n w
    exact ⟨kc, by rw [calls_since_of_trace k, kf]⟩

/-- C10 on concrete platforms: a failed poll, a readable socket, an idle
socket, and three iterations of the loop. -/
theorem main_loop_body_by_poll_result_witness :
    calls_since connected (main_loop_body poll_fails connected).2 =
      [.zsock_poll 1 1000, .LOG_ERR "Error in poll: %d" [poll_ret poll_fails connected]] ∧
    (calls_since connected (main_loop_body readable connected).2).filter Call.isLoop =
      [.zsock_poll 1 1000, .mqtt_input, .mqtt_live] ∧
    (calls_since connected (main_loop_body quiet connected).2).filter Call.isLoop =
      [.zsock_poll 1 1000, .mqtt_live] ∧
    (main_loop readable 3 connected).1 = false :=
  ⟨((main_loop_body_by_poll_result poll_fails connected).1 (by decide)).2,
   ((main_loop_body_by_poll_result readable connected).2.1 (by decide) (by decide)).2,
   ((main_loop_body_by_poll_result quiet connected).2.2.1 (by decide) (by decide)).2,
   ((main_loop_body_by_poll_result readable connected).2.2.2 3).1⟩

/-! ## C9 -/

theorem handler_cb_trace (z : Zephyr) (w : World) (ev : Nat) :
    (handler_cb z w ev).trace =
      w.trace ++ (if ev = z.NET_EVENT_IPV4_DHCP_BOUND then [.handler_cb ev, .k_sem_give]
                  else [.handler_cb ev]) := by
  by_cases h : ev = z.NET_EVENT_IPV4_DHCP_BOUND <;> simp [handler_cb, k_sem_give, h]

theorem handler_cb_netif_ready (z : Zephyr) (w : World) (ev : Nat)
    (hw : w.netif_ready ≤ 1) :
    (handler_cb z w ev).netif_ready =
      if ev = z.NET_EVENT_IPV4_DHCP_BOUND then 1 else w.netif_ready := by
  by_cases h : ev = z.NET_EVENT_IPV4_DHCP_BOUND
  · simp only [handler_cb, k_sem_give, h, ne_eq, not_true_eq_false, if_false, if_true,
      World.call_netif_ready]
    split_ifs <;> omega
  · simp [handler_cb, h]

theorem handler_cb_fold_netif_ready (z : Zephyr) (evs : List Nat) : ∀ w : World,
    w.netif_ready ≤ 1 →
    (evs.foldl (handler_cb z) w).netif_ready =
      if z.NET_EVENT_IPV4_DHCP_BOUND ∈ evs then 1 else w.netif_ready := by
  induction evs with
  | nil => intro w _; simp
  | cons e es ih =>
    intro w hw
    have h1 := handler_cb_netif_ready z w e hw
    have h2 : (handler_cb z w e).netif_ready ≤ 1 := by rw [h1]; split_ifs <;> omega
    rw [List.foldl_cons, ih _ h2, h1]
    by_cases he : e = z.NET_EVENT_IPV4_DHCP_BOUND
    · simp [he]
    · have he1 : ¬ z.NET_EVENT_IPV4_DHCP_BOUND = e := fun h => he h.symm
      simp [he, he1]

/-- Waiting for ever on the semaphore returns exactly when the semaphore is
available or an address-assignment event arrives. -/
theorem k_sem_take_isSome (z : Zephyr) (evs : List Nat) : ∀ w : World,
    w.netif_ready ≤ 1 →
    ((k_sem_take z evs w).isSome ↔
      (0 < w.netif_ready ∨ z.NET_EVENT_IPV4_DHCP_BOUND ∈ evs)) := by
  induction evs with
  | nil => intro w _; by_cases h : 0 < w.netif_ready <;> simp [k_sem_take, h]
  | cons e es ih =>
    intro w hw
    by_cases h : 0 < w.netif_ready
    · simp [k_sem_take, h]
    · have h1 := handler_cb_netif_ready z w e hw
      have h2 : (handler_cb z w e).netif_ready ≤ 1 := by rw [h1]; split_ifs <;> omega
      simp only [k_sem_take, h, if_false, ih _ h2, h1, false_or, List.mem_cons]
      by_cases he : e = z.NET_EVENT_IPV4_DHCP_BOUND
      · simp [he]
      · have he1 : ¬ z.NET_EVENT_IPV4_DHCP_BOUND = e := fun k => he k.symm
        simp [he, he1, h]

theorem Bound_seen.after_call {z : Zephyr} {w0 x : World} (h : Bound_seen z w0 x) (c : Call) :
    Bound_seen z w0 (x.call c) := by
  obtain ⟨cs, h1, h2⟩ := h
  exact ⟨cs ++ [c], by simp [h1], fun k => List.mem_append_left _ (h2 k)⟩

theorem Bound_seen.after_handler_cb {z : Zephyr} {w0 x : World} (h : Bound_seen z w0 x)
    (ev : Nat) : Bound_seen z w0 (handler_cb z x ev) := by
  obtain ⟨cs, h1, h2⟩ := h
  refine ⟨cs ++ (if ev = z.NET_EVENT_IPV4_DHCP_BOUND then [.handler_cb ev, .k_sem_give]
    else [.handler_cb ev]), by rw [handler_cb_trace, h1, List.append_assoc], ?_⟩
  by_cases he : ev = z.NET_EVENT_IPV4_DHCP_BOUND
  · intro _; simp [he]
  · intro k
    have : (ARC.handler_cb z x ev).netif_ready = x.netif_ready := by simp [ARC.handler_cb, he]
    rw [this] at k
    exact List.mem_append_left _ (h2 k)

theorem Bound_seen.after_fold {z : Zephyr} {w0 : World} (evs : List Nat) : ∀ x : World,
    Bound_seen z w0 x → Bound_seen z w0 (evs.foldl (ARC.handler_cb z) x) := by
  induction evs with
  | nil => intro x h; exact h
  | cons e es ih => intro x h; exact ih _ (h.after_handler_cb e)

/-- When the wait returns, an address-assignment event has been delivered. -/
theorem Bound_seen.after_take {z : Zephyr} {w0 : World} (evs : List Nat) : ∀ x w1 : World,
    Bound_seen z w0 x → k_sem_take z evs x = some w1 →
    ∃ cs, w1.trace = w0.trace ++ cs ∧
      Call.handler_cb z.NET_EVENT_IPV4_DHCP_BOUND ∈ cs := by
  induction evs with
  | nil =>
    intro x w1 h hk
    obtain ⟨cs, h1, h2⟩ := h
    by_cases hr : 0 < x.netif_ready
    · simp only [k_sem_take, hr, if_true, Option.some.injEq] at hk
      subst hk
      exact ⟨cs, h1, h2 hr⟩
    · simp [k_sem_take, hr] at hk
  | cons e es ih =>
    intro x w1 h hk
    by_cases hr : 0 < x.netif_ready
    · obtain ⟨cs, h1, h2⟩ := h
      simp only [k_sem_take, hr, if_true, Option.some.injEq] at hk
      subst hk
      exact ⟨cs, h1, h2 hr⟩
    · simp only [k_sem_take, hr, if_false] at hk
      exact ih _ w1 (h.after_handler_cb e) hk

theorem wifi_interface_init_function_eq (z : Zephyr) (w : World) :
    wifi_interface_init_function z w =
      match iface_found z w with
      | none =>
        some (((registered z w).call .net_if_get_default).call
          (.LOG_ERR "wifi interface not available" []))
      | some _ =>
        k_sem_take z z.late_events
          ((((registered z w).call .net_if_get_default).call .net_dhcpv4_start).call
            .k_sem_take) := rfl

theorem handler_cb_fold_trace (z : Zephyr) (evs : List Nat) : ∀ x : World,
    ∃ ds, (evs.foldl (handler_cb z) x).trace = x.trace ++ ds ∧
      ∀ c ∈ ds, c.isDelivery = true := by
  induction evs with
  | nil => intro x; exact ⟨[], by simp, by simp⟩
  | cons e es ih =>
    intro x
    obtain ⟨ds, h1, h2⟩ := ih (handler_cb z x e)
    refine ⟨(if e = z.NET_EVENT_IPV4_DHCP_BOUND then [.handler_cb e, .k_sem_give]
      else [.handler_cb e]) ++ ds,
      by rw [List.foldl_cons, h1, handler_cb_trace, List.append_assoc], ?_⟩
    intro c hc
    rcases List.mem_append.mp hc with hc | hc
    · split_ifs at hc
      · simp only [List.mem_cons, List.mem_singleton, List.not_mem_nil, or_false] at hc
        rcases hc with hc | hc <;> subst hc <;> rfl
      · simp only [List.mem_singleton] at hc
        subst hc; rfl
    · exact h2 c hc

/-- C9 (as stated, refuted): with no default interface the bring-up returns
after four calls, none of them a delivery to handler_cb, without starting DHCP
and without waiting on the semaphore. -/
theorem bring_up_returns_without_iface :
    (wifi_interface_init_function no_iface boot).map (calls_since boot) =
      some [.net_mgmt_init_event_callback no_iface.NET_EVENT_IPV4_DHCP_BOUND,
            .net_mgmt_add_event_callback,
            .net_if_get_default,
            .LOG_ERR "wifi interface not available" []] := by
  decide

/-- C9 (amended): started with the semaphore count at 0, as K_SEM_DEFINE sets
it: if a default interface exists, wifi_interface_init_function returns exactly
when an address-assignment event (NET_EVENT_IPV4_DHCP_BOUND) arrives after the
callback was registered, and whenever it returns such an event has been
delivered to handler_cb since the function was entered; if no default interface
exists it logs "wifi interface not available" and returns at once, without
starting DHCP and without waiting on the semaphore: its calls are the two
registration calls, the deliveries of the early events, net_if_get_default and
that LOG_ERR, in this order. In every state handler_cb gives the semaphore once
for the address-assignment event and not at all for any other management
event. -/
theorem bring_up_waits_for_address (z : Zephyr) (w : World) (h0 : w.netif_ready = 0) :
    (∀ iface : Nat, iface_found z w = some iface →
      ((wifi_interface_init_function z w).isSome ↔
        z.NET_EVENT_IPV4_DHCP_BOUND ∈ z.early_events ++ z.late_events) ∧
      (∀ w1 : World, wifi_interface_init_function z w = some w1 →
        Call.handler_cb z.NET_EVENT_IPV4_DHCP_BOUND ∈ calls_since w w1)) ∧
    (iface_found z w = none →
      ∃ w1 : World, wifi_interface_init_function z w = some w1 ∧
        Call.net_dhcpv4_start ∉ calls_since w w1 ∧ Call.k_sem_take ∉ calls_since w w1 ∧
        ∃ ds : List Call, (∀ c ∈ ds, c.isDelivery = true) ∧
          calls_since w w1 =
            .net_mgmt_init_event_callback z.NET_EVENT_IPV4_DHCP_BOUND ::
              .net_mgmt_add_event_callback :: ds ++
              [.net_if_get_default, .LOG_ERR "wifi interface not available" []]) ∧
    (∀ (x : World) (ev : Nat),
      (calls_since x (handler_cb z x ev)).count .k_sem_give =
        if ev = z.NET_EVENT_IPV4_DHCP_BOUND then 1 else 0) := by
  have hreg : (registered z w).netif_ready =
      if z.NET_EVENT_IPV4_DHCP_BOUND ∈ z.early_events then 1 else 0 := by
    unfold registered
    rw [handler_cb_fold_netif_ready z _ _ (by simp [h0])]
    simp [h0]
  have hseen : Bound_seen z w (registered z w) := by
    have hw : Bound_seen z w w := ⟨[], by simp, by simp [h0]⟩
    exact Bound_seen.after_fold _ _ ((hw.after_call _).after_call _)
  refine ⟨fun iface hi => ⟨?_, fun w1 h1 => ?_⟩, fun hi => ?_, fun x ev => ?_⟩
  · rw [wifi_interface_init_function_eq, hi]
    simp only
    rw [k_sem_take_isSome z _ _ (by simp only [World.call_netif_ready, hreg]; split_ifs <;> omega)]
    simp only [World.call_netif_ready, hreg, List.mem_append]
    by_cases he : z.NET_EVENT_IPV4_DHCP_BOUND ∈ z.early_events <;> simp [he]
  · rw [wifi_interface_init_function_eq, hi] at h1
    obtain ⟨cs, k1, k2⟩ := Bound_seen.after_take _ _ w1
      (((hseen.after_call _).after_call _).after_call _) h1
    rw [calls_since_of_trace k1]
    exact k2
  · obtain ⟨ds, d1, d2⟩ := handler_cb_fold_trace z z.early_events
      ((w.call (.net_mgmt_init_event_callback z.NET_EVENT_IPV4_DHCP_BOUND)).call
        .net_mgmt_add_event_callback)
    have d3 : (registered z w).trace = w.trace ++
        (.net_mgmt_init_event_callback z.NET_EVENT_IPV4_DHCP_BOUND ::
          .net_mgmt_add_event_callback :: ds) := by
      unfold registered; rw [d1]; simp
    have d4 : (((registered z w).call .net_if_get_default).call
        (.LOG_ERR "wifi interface not available" [])).trace = w.trace ++
        (.net_mgmt_init_event_callback z.NET_EVENT_IPV4_DHCP_BOUND ::
          .net_mgmt_add_event_callback :: ds ++
          [.net_if_get_default, .LOG_ERR "wifi interface not available" []]) := by
      simp [d3]
    refine ⟨_, by rw [wifi_interface_init_function_eq, hi], ?_, ?_, ds, d2,
      calls_since_of_trace d4⟩
    · rw [calls_since_of_trace d4]
      intro hm
      simp only [List.cons_append, List.mem_cons, List.mem_append, List.mem_singleton,
        reduceCtorEq, false_or, or_false, List.not_mem_nil] at hm
      have := d2 _ hm
      simp [Call.isDelivery] at this
    · rw [calls_since_of_trace d4]
      intro hm
      simp only [List.cons_append, List.mem_cons, List.mem_append, List.mem_singleton,
        reduceCtorEq, false_or, or_false, List.not_mem_nil] at hm
      have := d2 _ hm
      simp [Call.isDelivery] at this
  · rw [calls_since_of_trace (handler_cb_trace z x ev)]
    split_ifs <;> simp [List.count_cons]

/-- C9 (amended) on concrete platforms, from the start state: when the
address-assignment event arrives the bring-up returns, when no event arrives it
never returns, with no default interface it returns with the error log among
its calls, and handler_cb gives the semaphore for event 8 only. -/
theorem bring_up_waits_for_address_witness :
    (wifi_interface_init_function dhcp_binds boot).isSome = true ∧
    (wifi_interface_init_function quiet boot).isSome = false ∧
    (∃ w1 : World, wifi_interface_init_function no_iface boot = some w1 ∧
      Call.LOG_ERR "wifi interface not available" [] ∈ calls_since boot w1) ∧
    (calls_since boot (handler_cb quiet boot 8)).count .k_sem_give = 1 ∧
    (calls_since boot (handler_cb quiet boot 5)).count .k_sem_give = 0 :=
  ⟨(((bring_up_waits_for_address dhcp_binds boot rfl).1 1 rfl).1).mpr (by decide),
   by
     have h := ((bring_up_waits_for_address quiet boot rfl).1 1 rfl).1
     cases hs : (wifi_interface_init_function quiet boot).isSome
     · rfl
     · exact absurd (h.mp hs) (by decide),
   by
     obtain ⟨w1, h1, _, _, ds, _, h2⟩ :=
       (bring_up_waits_for_address no_iface boot rfl).2.1 rfl
     exact ⟨w1, h1, by rw [h2]; simp⟩,
   ((bring_up_waits_for_address quiet boot rfl).2.2 boot 8).trans (by decide),
   ((bring_up_waits_for_address quiet boot rfl).2.2 boot 5).trans (by decide)⟩

/-! ## C11 -/

/-- C11 (evaluation at the failing inputs): for every platform behaviour and
every program state, a publish event with the empty topic (size 0) and payload
"on" makes the handler set the LED to 1, one with topic "device" (size 6) and
payload "off" makes it set the LED to 0, and one with topic "device/led"
(size 10) and payload "on" makes it set the LED to 1, because the topic
comparison is a strncmp bounded by the size of the received topic and so
accepts every leading part of "device/led/status". -/
theorem short_topic_drives_led (z : Zephyr) (w : World) :
    calls_since w
        (mqtt_event_handler z w (publish_evt ⟨[], 0⟩ ⟨cstr "on", 2⟩))
      = [.gpio_pin_set_dt 1] ∧
    calls_since w
        (mqtt_event_handler z w (publish_evt ⟨cstr "device", 6⟩ ⟨cstr "off", 3⟩))
      = [.gpio_pin_set_dt 0] ∧
    calls_since w
        (mqtt_event_handler z w (publish_evt ⟨cstr "device/led", 10⟩ ⟨cstr "on", 2⟩))
      = [.gpio_pin_set_dt 1] := by
  have t0 : strncmp [] LED_TOPIC 0 = 0 := by decide
  have t6 : strncmp (cstr "device") LED_TOPIC 6 = 0 := by decide
  have t10 : strncmp (cstr "device/led") LED_TOPIC 10 = 0 := by decide
  have p1 : strncmp (cstr "on") (cstr "on") 2 = 0 := by decide
  have p2 : strncmp (cstr "off") (cstr "on") 3 ≠ 0 := by decide
  have p3 : strncmp (cstr "off") (cstr "off") 3 = 0 := by decide
  refine ⟨?_, ?_, ?_⟩ <;> apply calls_since_of_trace <;>
    simp [mqtt_event_handler, publish_evt, t0, t6, t10, p1, p2, p3, turn_on_led, turn_off_led]

end ARC
